import Mathlib

/-!
Shallow embedding of the RoboDK client wire protocol
(`src/users/robodk/robolink.py`): byte-level codec for the primitive wire
types, the per-call status protocol, the move-target dispatch, the connect
retry loop and the handshake.  Doubles travel as their 64-bit IEEE bit
patterns (a `Nat < 2^64`): `struct.pack` with format `>d` serialises exactly the
bit pattern and `struct.unpack` restores it, so bit-level round trips model
the Python behaviour faithfully.
-/

namespace Robolink

/-- Big-endian byte serialisation of a natural number on `k` bytes, as
produced by `struct.pack` with a big-endian format. -/
def natToBytesBE : Nat → Nat → List Nat
  | 0, _ => []
  | k + 1, n => natToBytesBE k (n / 256) ++ [n % 256]

/-- Big-endian byte deserialisation, inverse of `natToBytesBE`. -/
def bytesToNatBE (bs : List Nat) : Nat :=
  bs.foldl (fun a b => a * 256 + b) 0

theorem natToBytesBE_length (k n : Nat) : (natToBytesBE k n).length = k := by
  induction k generalizing n with
  | zero => rfl
  | succ k ih => simp [natToBytesBE, ih]

theorem bytesToNatBE_append_single (l : List Nat) (b : Nat) :
    bytesToNatBE (l ++ [b]) = bytesToNatBE l * 256 + b := by
  simp [bytesToNatBE, List.foldl_append]

theorem bytesToNatBE_natToBytesBE (k n : Nat) :
    bytesToNatBE (natToBytesBE k n) = n % 256 ^ k := by
  induction k generalizing n with
  | zero => simp [natToBytesBE, bytesToNatBE, Nat.mod_one]
  | succ k ih =>
    rw [natToBytesBE, bytesToNatBE_append_single, ih, pow_succ']
    rw [Nat.mod_mul]
    ring

/-- Reading `k` bytes off the head of a byte stream (models `COM.recv(k)`
on a stream that delivers the requested bytes). -/
def readBytes (k : Nat) (bs : List Nat) : Option (List Nat × List Nat) :=
  if k ≤ bs.length then some (bs.take k, bs.drop k) else none

theorem readBytes_append (l rest : List Nat) :
    readBytes l.length (l ++ rest) = some (l, rest) := by
  simp [readBytes]

theorem readBytes_natToBytesBE (k n : Nat) (rest : List Nat) :
    readBytes k (natToBytesBE k n ++ rest) = some (natToBytesBE k n, rest) := by
  have h := readBytes_append (natToBytesBE k n) rest
  rwa [natToBytesBE_length] at h

/-- `struct.pack` with format `>i`: 4 bytes, big-endian, twos complement. -/
def encodeInt32 (n : Int) : List Nat :=
  natToBytesBE 4 (n % 4294967296).toNat

/-- Interpreting 4 big-endian bytes as a signed 32-bit integer
(`struct.unpack` with format `>i`). -/
def decodeInt32 (u : Nat) : Int :=
  if u < 2147483648 then (u : Int) else (u : Int) - 4294967296

/-- `Robolink._rec_int`: receive 4 bytes and unpack a signed big-endian
32-bit integer. -/
def rec_int (bs : List Nat) : Option (Int × List Nat) :=
  (readBytes 4 bs).bind fun c => some (decodeInt32 (bytesToNatBE c.1), c.2)

theorem rec_int_encode (n : Int) (h1 : -2147483648 ≤ n) (h2 : n < 2147483648)
    (rest : List Nat) : rec_int (encodeInt32 n ++ rest) = some (n, rest) := by
  have hlen : (encodeInt32 n).length = 4 := natToBytesBE_length 4 _
  rw [rec_int, ← hlen, readBytes_append, Option.some_bind]
  simp only [Option.some.injEq, Prod.mk.injEq, and_true]
  rw [encodeInt32, bytesToNatBE_natToBytesBE]
  have hnn : 0 ≤ n % 4294967296 := Int.emod_nonneg n (by norm_num)
  have hub : n % 4294967296 < 4294967296 := Int.emod_lt_of_pos n (by norm_num)
  have hmod : (n % 4294967296).toNat % 256 ^ 4 = (n % 4294967296).toNat := by
    apply Nat.mod_eq_of_lt
    omega
  rw [hmod, decodeInt32]
  have hcast : ((n % 4294967296).toNat : Int) = n % 4294967296 :=
    Int.toNat_of_nonneg hnn
  split
  · rw [hcast]
    omega
  · rw [hcast]
    omega

/-- Serialisation of a list of doubles (as 64-bit patterns), one
`struct.pack` call with format `>d` per element, concatenated in order. -/
def packF64s : List Nat → List Nat
  | [] => []
  | v :: t => natToBytesBE 8 v ++ packF64s t

/-- Reading `k` consecutive big-endian float64 values off a byte stream. -/
def readF64s : Nat → List Nat → Option (List Nat × List Nat)
  | 0, bs => some ([], bs)
  | k + 1, bs =>
    (readBytes 8 bs).bind fun c =>
      (readF64s k c.2).bind fun vr => some (bytesToNatBE c.1 :: vr.1, vr.2)

theorem packF64s_length (vs : List Nat) : (packF64s vs).length = 8 * vs.length := by
  induction vs with
  | nil => rfl
  | cons v t ih =>
    simp [packF64s, natToBytesBE_length, ih]
    ring

theorem readF64s_packF64s (vs rest : List Nat) (h : ∀ v ∈ vs, v < 18446744073709551616) :
    readF64s vs.length (packF64s vs ++ rest) = some (vs, rest) := by
  induction vs with
  | nil => simp [readF64s, packF64s]
  | cons v t ih =>
    rw [List.length_cons, readF64s, packF64s, List.append_assoc,
      readBytes_natToBytesBE, Option.some_bind]
    rw [ih (fun x hx => h x (List.mem_cons_of_mem v hx)), Option.some_bind]
    rw [bytesToNatBE_natToBytesBE]
    have hv : v < 18446744073709551616 := h v (List.mem_cons_self v t)
    rw [Nat.mod_eq_of_lt (by norm_num; omega)]

/-- `Robolink._send_array`: 4-byte big-endian count, then the packed
doubles only when the count is positive. -/
def send_array_bytes (vs : List Nat) : List Nat :=
  encodeInt32 (vs.length : Int) ++ (if 0 < vs.length then packF64s vs else [])

/-- `Robolink._rec_array`: read the count; if positive read that many
doubles, otherwise return the one-element array `[0]`. -/
def rec_array (bs : List Nat) : Option (List Nat × List Nat) :=
  (rec_int bs).bind fun nr =>
    if 0 < nr.1 then
      (readF64s nr.1.toNat nr.2).bind fun vr => some (vr.1, vr.2)
    else some ([0], nr.2)

/-- `Robolink._send_item`: only the 8-byte big-endian id is written
(`struct.pack` with format `>Q` on `item.item`); no type tag is sent. -/
def send_item_bytes (id : Nat) : List Nat :=
  natToBytesBE 8 id

/-- `Robolink._rec_item`: read an 8-byte big-endian id, then a 4-byte
big-endian signed type tag. -/
def rec_item (bs : List Nat) : Option ((Nat × Int) × List Nat) :=
  (readBytes 8 bs).bind fun c =>
    (readBytes 4 c.2).bind fun c2 =>
      some ((bytesToNatBE c.1, decodeInt32 (bytesToNatBE c2.1)), c2.2)

/-- A 4x4 pose, indexed `p i j` = row `i`, column `j`, entries as 64-bit
float patterns. -/
def PoseM := Fin 4 → Fin 4 → Nat

/-- The order `Robolink._send_pose` visits the entries: `j` outer, `i`
inner, i.e. column-major. -/
def poseColMajor (p : PoseM) : List Nat :=
  [p 0 0, p 1 0, p 2 0, p 3 0,
   p 0 1, p 1 1, p 2 1, p 3 1,
   p 0 2, p 1 2, p 2 2, p 3 2,
   p 0 3, p 1 3, p 2 3, p 3 3]

/-- `Robolink._send_pose`: the 16 doubles in column-major order, packed
back to back with no size header. -/
def send_pose_bytes (p : PoseM) : List Nat :=
  packF64s (poseColMajor p)

/-- `Robolink._rec_pose`: read 16 doubles and fill the 4x4 matrix in the
same column-major order (`pose[i,j] = posenums[j*4+i]`). -/
def rec_pose (bs : List Nat) : Option (PoseM × List Nat) :=
  (readF64s 16 bs).bind fun vr =>
    some ((fun i j => vr.1.getD ((j : Nat) * 4 + (i : Nat)) 0), vr.2)

/-- Outcome of `Robolink._check_status`: a normal return carrying an int,
a normal return after printing a warning, or a raised `Exception`. -/
inductive StatusOutcome
  | ret (v : Int)
  | warned (msg : String) (v : Int)
  | raised (msg : String)
deriving DecidableEq

def invalidItemMsg : String :=
  "Invalid item provided: The item identifier provided is not valid or it does not exist."

def licenseMsg : String := "Invalid license. Contact us at: www.robodk.com"

/-- `Robolink._check_status`: the status code already read by `_rec_int`,
and the next LF-terminated line of the stream (consumed only when the code
asks for a trailing message). -/
def check_status (status : Int) (nextLine : String) : StatusOutcome :=
  if 0 < status ∧ status < 10 then
    if status = 1 then .raised invalidItemMsg
    else if status = 2 then .warned nextLine 0
    else if status = 3 then .raised nextLine
    else if status = 9 then .raised licenseMsg
    else .raised "Unknown error"
  else if status = 0 then .ret 0
  else .raised "Problems running function"

/-- A move target as classified by the `isinstance` chain in
`Robolink._moveX` / `Robolink.MoveC`: a remote handle (`Item`), a joint
sequence (`list`, or a `Mat` that is not 4x4), or a 4x4 pose. -/
inductive MoveTarget
  | handle (id : Nat)
  | joints (vs : List Nat)
  | pose (p : PoseM)

/-- One primitive operation on the connection, at the granularity of the
`_send_* / _rec_*` helpers. -/
inductive WireEvent
  | checkConnection
  | sendLine (s : String)
  | sendInt (n : Int)
  | sendArray (vs : List Nat)
  | sendItem (id : Nat)
  | sendPose (p : PoseM)
  | recvInt (n : Int)

/-- `Item.WaitMove` on the success path (both status reads return 0):
check the connection, send the command line and the robot handle, then
read the immediate status and — under the extended timeout — the status
that arrives when the motion finishes. -/
def waitMoveEvents (rid : Nat) : List WireEvent :=
  [.checkConnection, .sendLine "WaitMove", .sendItem rid,
   .recvInt 0, .recvInt 0]

/-- `Robolink._moveX` on the success path: the initial `WaitMove` on the
robot, the command line and move type, the `isinstance`-classified target
slots, the robot handle, the status read, and — only when `blocking` —
a final `WaitMove`. -/
def moveX (target : MoveTarget) (rid : Nat) (movetype : Int)
    (blocking : Bool) : List WireEvent :=
  waitMoveEvents rid ++
  [.sendLine "MoveX", .sendInt movetype] ++
  (match target with
   | .handle h => [.sendInt 3, .sendArray [], .sendItem h]
   | .joints vs => [.sendInt 1, .sendArray vs, .sendItem 0]
   | .pose p => [.sendInt 2, .sendArray (poseColMajor p), .sendItem 0]) ++
  [.sendItem rid, .recvInt 0] ++
  (if blocking then waitMoveEvents rid else [])

/-- `Robolink.MoveC` on the success path: same structure with command
`MoveC`, fixed move type 3, and the classification repeated verbatim for
each of the two targets, as in the source. -/
def moveC (target1 target2 : MoveTarget) (rid : Nat)
    (blocking : Bool) : List WireEvent :=
  waitMoveEvents rid ++
  [.sendLine "MoveC", .sendInt 3] ++
  (match target1 with
   | .handle h => [.sendInt 3, .sendArray [], .sendItem h]
   | .joints vs => [.sendInt 1, .sendArray vs, .sendItem 0]
   | .pose p => [.sendInt 2, .sendArray (poseColMajor p), .sendItem 0]) ++
  (match target2 with
   | .handle h => [.sendInt 3, .sendArray [], .sendItem h]
   | .joints vs => [.sendInt 1, .sendArray vs, .sendItem 0]
   | .pose p => [.sendInt 2, .sendArray (poseColMajor p), .sendItem 0]) ++
  [.sendItem rid, .recvInt 0] ++
  (if blocking then waitMoveEvents rid else [])

/-- The description in the spec of the motion-target discriminator slots:
"tag 3 + empty array + handle (handle form), tag 1 + array + null handle
(joint form), or tag 2 + flattened 16-double array + null handle (pose
form)".  Stated independently of the code, to be compared with `moveX`
and `moveC`. -/
def specTargetSlots : MoveTarget → List WireEvent
  | .handle h => [.sendInt 3, .sendArray [], .sendItem h]
  | .joints vs => [.sendInt 1, .sendArray vs, .sendItem 0]
  | .pose p => [.sendInt 2, .sendArray (poseColMajor p), .sendItem 0]

/-- The per-pair loop body of `setPoses` / `setPosesAbs`. -/
def pairEvents : List (Nat × PoseM) → List WireEvent
  | [] => []
  | ip :: t => .sendItem ip.1 :: .sendPose ip.2 :: pairEvents t

/-- The per-robot loop body of `setJoints`. -/
def jointsEvents : List (Nat × List Nat) → List WireEvent
  | [] => []
  | rj :: t => .sendItem rj.1 :: .sendArray rj.2 :: jointsEvents t

/-- `Robolink.setPoses`: the wire events emitted, paired with the raised
exception message if any.  The length check is the first statement of the
function, before the connection check and all sends. -/
def setPoses (items : List Nat) (poses : List PoseM) :
    List WireEvent × Option String :=
  if items.length ≠ poses.length then
    ([], some "The number of items must match the number of poses")
  else if items.length = 0 then ([], none)
  else
    ([.checkConnection, .sendLine "S_Hlocals", .sendInt (items.length : Int)] ++
     pairEvents (items.zip poses) ++ [.recvInt 0], none)

/-- `Robolink.setPosesAbs`: identical to `setPoses` with command
`S_Hlocal_AbsS`. -/
def setPosesAbs (items : List Nat) (poses : List PoseM) :
    List WireEvent × Option String :=
  if items.length ≠ poses.length then
    ([], some "The number of items must match the number of poses")
  else if items.length = 0 then ([], none)
  else
    ([.checkConnection, .sendLine "S_Hlocal_AbsS", .sendInt (items.length : Int)] ++
     pairEvents (items.zip poses) ++ [.recvInt 0], none)

/-- `Robolink.setJoints`: length check first, then connection check,
command line, count, and the item/array pairs. -/
def setJoints (robots : List Nat) (joints : List (List Nat)) :
    List WireEvent × Option String :=
  if robots.length ≠ joints.length then
    ([], some "The size of the robot list does not match the size of the joints list")
  else
    ([.checkConnection, .sendLine "S_ThetasList", .sendInt (robots.length : Int)] ++
     jointsEvents (robots.zip joints) ++ [.recvInt 0], none)

/-- Connection-level events of `Robolink.Connect`: one full pass over the
port range, a `subprocess.Popen` of the application, the fixed
`time.sleep(5)` settle delay, and a socket close (never emitted —
`Connect` leaves the socket open even when the handshake fails). -/
inductive ConnEvent
  | scanPass
  | spawn
  | sleep
  | closeSocket
deriving DecidableEq

/-- `Robolink._set_connection_params`: result (1 = ok, 0 = failed) and the
two lines sent, given the reply line of the server. -/
def set_connection_params (safe auto : Int) (reply : String) :
    Int × List String :=
  (if reply = "READY" then 1 else 0,
   ["CMD_START", toString safe ++ " " ++ toString auto])

/-- `Robolink.Connect`: the `for i in range(2)` retry loop, unrolled.
`live0` / `live1` say whether the port scan of the first / second pass
finds a live port; `reply` is the handshake reply line of the server.  Returns
the value of `connected` and the connection-level event trace. -/
def connectTrace (isLocal : Bool) (live0 live1 : Bool) (reply : String) :
    Int × List ConnEvent :=
  if live0 then
    ((set_connection_params 1 0 reply).1, [.scanPass])
  else if !isLocal then
    (0, [.scanPass])
  else if live1 then
    ((set_connection_params 1 0 reply).1, [.scanPass, .spawn, .sleep, .scanPass])
  else
    (0, [.scanPass, .spawn, .sleep, .scanPass, .spawn, .sleep])

theorem decodeInt32_encodeInt32 (n : Int) (h1 : -2147483648 ≤ n)
    (h2 : n < 2147483648) :
    decodeInt32 ((n % 4294967296).toNat % 256 ^ 4) = n := by
  have hnn : 0 ≤ n % 4294967296 := Int.emod_nonneg n (by norm_num)
  have hub : n % 4294967296 < 4294967296 := Int.emod_lt_of_pos n (by norm_num)
  have hmod : (n % 4294967296).toNat % 256 ^ 4 = (n % 4294967296).toNat := by
    apply Nat.mod_eq_of_lt
    omega
  rw [hmod, decodeInt32]
  have hcast : ((n % 4294967296).toNat : Int) = n % 4294967296 :=
    Int.toNat_of_nonneg hnn
  split
  · rw [hcast]
    omega
  · rw [hcast]
    omega

/-- C1: the outcome of the Status Protocol for each documented code: 0 returns
normally, 1 raises the generic invalid-item error, 2 reads the trailing
message, warns, and returns normally, 3 raises with exactly the trailing
message, 9 raises the fixed licensing error, and every code in 4..8
raises the generic unknown error. -/
theorem c1_status_code_table (s : Int) (msg : String) :
    (s = 0 → check_status s msg = .ret 0) ∧
    (s = 1 → check_status s msg = .raised invalidItemMsg) ∧
    (s = 2 → check_status s msg = .warned msg 0) ∧
    (s = 3 → check_status s msg = .raised msg) ∧
    (s = 9 → check_status s msg = .raised licenseMsg) ∧
    (4 ≤ s → s ≤ 8 → check_status s msg = .raised "Unknown error") := by
  refine ⟨?_, ?_, ?_, ?_, ?_, ?_⟩
  · rintro rfl
    rfl
  · rintro rfl
    rfl
  · rintro rfl
    rfl
  · rintro rfl
    rfl
  · rintro rfl
    rfl
  · intro h4 h8
    rw [check_status, if_pos ⟨by omega, by omega⟩, if_neg (by omega),
      if_neg (by omega), if_neg (by omega), if_neg (by omega)]

/-- C1 witness: status 3 with message "Unreachable target" raises with
exactly that message. -/
theorem c1_status_code_table_witness :
    check_status 3 "Unreachable target" = .raised "Unreachable target" :=
  (c1_status_code_table 3 "Unreachable target").2.2.2.1 rfl

/-- C2 counterexample: on status code -1 the Status Protocol does not
return the code value; it raises. -/
theorem c2_counterexample :
    check_status (-1) "" ≠ StatusOutcome.ret (-1) := by
  decide

/-- C2 amended: every status code that is negative or at least 10 makes
the Status Protocol raise the generic "Problems running function" fatal
error; no code outside 0..9 is passed through as a return value. -/
theorem c2_other_codes_raise (s : Int) (msg : String)
    (h : s < 0 ∨ 10 ≤ s) :
    check_status s msg = .raised "Problems running function" := by
  rw [check_status, if_neg (by omega), if_neg (by omega)]

/-- C2 amended witness: status code 10 raises the generic error. -/
theorem c2_other_codes_raise_witness :
    ((10 : Int) < 0 ∨ 10 ≤ (10 : Int)) ∧
      check_status 10 "" = .raised "Problems running function" :=
  ⟨Or.inr (by norm_num), c2_other_codes_raise 10 "" (Or.inr (by norm_num))⟩

/-- C3: both move dispatches classify the target locally and emit the
discriminator-first slot sequence of the spec: tag 3 + empty array + handle for
a remote handle, tag 1 + joint array + null handle for joints, tag 2 +
flattened 16-double array + null handle for a 4x4 pose; MoveC performs the
classification independently for each of its two targets. -/
theorem c3_move_target_classification (t t1 t2 : MoveTarget) (rid : Nat)
    (mt : Int) (b : Bool) :
    moveX t rid mt b =
      waitMoveEvents rid ++ [.sendLine "MoveX", .sendInt mt] ++
        specTargetSlots t ++ [.sendItem rid, .recvInt 0] ++
        (if b then waitMoveEvents rid else []) ∧
    moveC t1 t2 rid b =
      waitMoveEvents rid ++ [.sendLine "MoveC", .sendInt 3] ++
        specTargetSlots t1 ++ specTargetSlots t2 ++
        [.sendItem rid, .recvInt 0] ++
        (if b then waitMoveEvents rid else []) ∧
    (∀ p : PoseM, (poseColMajor p).length = 16) := by
  refine ⟨?_, ?_, fun p => rfl⟩
  · cases t <;> rfl
  · cases t1 <;> cases t2 <;> rfl

/-- C4 counterexample: the client-side encoding of the handle with id 5
and type tag 2 is not the 8-byte id followed by the 4-byte type tag:
`_send_item` writes only the id. -/
theorem c4_counterexample :
    send_item_bytes 5 ≠ natToBytesBE 8 5 ++ encodeInt32 2 := by
  decide

/-- C4 amended: when the client sends a handle it writes only the 8-byte
big-endian id (8 bytes total, no type tag); decoding reads an 8-byte
big-endian id followed by a 4-byte big-endian type tag, in that order. -/
theorem c4_item_wire_format (id : Nat) (ty : Int) (rest : List Nat)
    (hid : id < 18446744073709551616)
    (hty1 : -2147483648 ≤ ty) (hty2 : ty < 2147483648) :
    (send_item_bytes id).length = 8 ∧
    rec_item (send_item_bytes id ++ (encodeInt32 ty ++ rest)) =
      some ((id, ty), rest) := by
  refine ⟨natToBytesBE_length 8 id, ?_⟩
  rw [rec_item, send_item_bytes, readBytes_natToBytesBE, Option.some_bind]
  rw [encodeInt32, readBytes_natToBytesBE, Option.some_bind]
  rw [bytesToNatBE_natToBytesBE, bytesToNatBE_natToBytesBE]
  rw [Nat.mod_eq_of_lt (by norm_num; omega)]
  rw [show decodeInt32 ((ty % 4294967296).toNat % 256 ^ 4) = ty from
    decodeInt32_encodeInt32 ty hty1 hty2]

/-- C4 amended witness: handle id 5 encodes to 8 bytes; the decoder
recovers id 5 and type 2 from the id bytes followed by the tag bytes. -/
theorem c4_item_wire_format_witness :
    rec_item (send_item_bytes 5 ++ (encodeInt32 2 ++ [])) = some ((5, 2), []) :=
  (c4_item_wire_format 5 2 [] (by norm_num) (by norm_num) (by norm_num)).2

/-- C5: encoding a double array writes the 4-byte count N then N
big-endian float64 values; decoding the encoding returns the original
array when N > 0, and the sentinel one-element array `[0]` when N = 0. -/
theorem c5_array_roundtrip (vs rest : List Nat)
    (hv : ∀ v ∈ vs, v < 18446744073709551616)
    (hn : vs.length < 2147483648) :
    (send_array_bytes vs).length = 4 + 8 * vs.length ∧
    rec_array (send_array_bytes vs ++ rest) =
      some ((if vs = [] then [0] else vs), rest) := by
  have hint : rec_int (encodeInt32 (vs.length : Int) ++ (packF64s vs ++ rest)) =
      some ((vs.length : Int), packF64s vs ++ rest) :=
    rec_int_encode _ (by omega) (by exact_mod_cast hn) _
  constructor
  · rw [send_array_bytes, List.length_append, encodeInt32, natToBytesBE_length]
    by_cases h0 : 0 < vs.length
    · rw [if_pos h0, packF64s_length]
    · rw [if_neg h0, List.length_nil]
      omega
  · by_cases h0 : vs = []
    · subst h0
      have hint0 : rec_int (encodeInt32 0 ++ rest) = some (0, rest) :=
        rec_int_encode 0 (by norm_num) (by norm_num) rest
      rw [rec_array, send_array_bytes, List.length_nil, Nat.cast_zero,
        if_neg (lt_irrefl 0), List.append_nil, hint0, Option.some_bind,
        if_neg (by norm_num), if_pos rfl]
    · have hlen0 : 0 < vs.length := List.length_pos.mpr h0
      rw [send_array_bytes, if_pos hlen0, rec_array, List.append_assoc, hint,
        Option.some_bind]
      dsimp only
      rw [if_pos (by exact_mod_cast hlen0), Int.toNat_natCast,
        readF64s_packF64s vs rest hv, Option.some_bind, if_neg h0]

/-- C5 witness: the empty array encodes to just the zero count and decodes
to the sentinel `[0]`, leaving the rest of the stream untouched. -/
theorem c5_array_roundtrip_witness :
    rec_array (send_array_bytes [] ++ [7]) = some ([0], [7]) := by
  have h := (c5_array_roundtrip [] [7] (by simp) (by norm_num)).2
  simpa using h

/-- C6: the pose encoding is exactly 16 big-endian float64 values in
column-major order with no size header (128 bytes), and encode followed by
decode is the bit-exact identity for every 4x4 pose, including
non-homogeneous ones (the homogeneity check only logs a warning). -/
theorem c6_pose_roundtrip (p : PoseM) (rest : List Nat)
    (h : ∀ i j, p i j < 18446744073709551616) :
    (send_pose_bytes p).length = 128 ∧
    rec_pose (send_pose_bytes p ++ rest) = some (p, rest) := by
  have hmem : ∀ v ∈ poseColMajor p, v < 18446744073709551616 := by
    intro v hv
    simp only [poseColMajor, List.mem_cons, List.not_mem_nil, or_false] at hv
    rcases hv with rfl | rfl | rfl | rfl | rfl | rfl | rfl | rfl | rfl | rfl |
      rfl | rfl | rfl | rfl | rfl | rfl <;> exact h _ _
  constructor
  · rw [send_pose_bytes, packF64s_length]
    rfl
  · rw [rec_pose, send_pose_bytes,
      show (16 : Nat) = (poseColMajor p).length from rfl,
      readF64s_packF64s _ _ hmem, Option.some_bind]
    simp only [Option.some.injEq, Prod.mk.injEq, and_true]
    funext i j
    fin_cases i <;> fin_cases j <;> rfl

/-- C6 witness: a concrete non-homogeneous pose (entry bit patterns
`i + 4*j`, last row not `[0,0,0,1]`) round-trips bit-exactly. -/
theorem c6_pose_roundtrip_witness :
    rec_pose (send_pose_bytes (fun i j : Fin 4 => (i : Nat) + 4 * (j : Nat)) ++ []) =
      some ((fun i j : Fin 4 => (i : Nat) + 4 * (j : Nat)), []) :=
  (c6_pose_roundtrip (fun i j : Fin 4 => (i : Nat) + 4 * (j : Nat)) []
    (by decide)).2

/-- C7 counterexample: with no live port on localhost, the connect loop
does not follow the claimed scan/spawn/wait/scan trace — it spawns a
second time after the second failed scan pass. -/
theorem c7_counterexample :
    (connectTrace true false false "READY").2 ≠
      [ConnEvent.scanPass, ConnEvent.spawn, ConnEvent.sleep,
       ConnEvent.scanPass] := by
  decide

/-- C7 amended: with no live port, a remote-host Connect fails after the
first scan pass with no spawn attempt; a localhost Connect spawns the
application and waits the settle delay after each of its two failed scan
passes (two spawn attempts, the second after the final scan), then
fails. -/
theorem c7_connect_retry (reply : String) :
    connectTrace false false false reply = (0, [.scanPass]) ∧
    connectTrace true false false reply =
      (0, [.scanPass, .spawn, .sleep, .scanPass, .spawn, .sleep]) :=
  ⟨rfl, rfl⟩

/-- C8: the handshake sends the fixed start token line and the two session
flags as one space-separated line, and the connect result is 1 exactly
when the reply line is the fixed ready token; on any other reply the
result is 0 and no socket close is ever issued. -/
theorem c8_handshake (safe auto : Int) (reply : String)
    (isLocal live1 : Bool) :
    (set_connection_params safe auto reply).2 =
      ["CMD_START", toString safe ++ " " ++ toString auto] ∧
    ((set_connection_params safe auto reply).1 = 1 ↔ reply = "READY") ∧
    (connectTrace isLocal true live1 reply).1 =
      (if reply = "READY" then 1 else 0) ∧
    ConnEvent.closeSocket ∉ (connectTrace isLocal true live1 reply).2 := by
  refine ⟨rfl, ?_, rfl, ?_⟩
  · by_cases h : reply = "READY" <;> simp [set_connection_params, h]
  · have h2 : (connectTrace isLocal true live1 reply).2 = [ConnEvent.scanPass] := rfl
    rw [h2]
    decide

/-- C9: setPoses, setPosesAbs and setJoints check the parallel list
lengths as their first action: on mismatch they raise a fatal error with
no wire event emitted (no connection check, no bytes sent). -/
theorem c9_length_check_before_send (items : List Nat) (poses : List PoseM)
    (robots : List Nat) (jlists : List (List Nat))
    (h1 : items.length ≠ poses.length) (h2 : robots.length ≠ jlists.length) :
    setPoses items poses =
      ([], some "The number of items must match the number of poses") ∧
    setPosesAbs items poses =
      ([], some "The number of items must match the number of poses") ∧
    setJoints robots jlists =
      ([], some "The size of the robot list does not match the size of the joints list") := by
  refine ⟨?_, ?_, ?_⟩
  · rw [setPoses, if_pos h1]
  · rw [setPosesAbs, if_pos h1]
  · rw [setJoints, if_pos h2]

/-- C9 witness: one item against zero poses, one robot against zero joint
lists — all three calls raise with an empty event trace. -/
theorem c9_length_check_before_send_witness :
    setPoses [1] [] =
      ([], some "The number of items must match the number of poses") ∧
    setPosesAbs [1] [] =
      ([], some "The number of items must match the number of poses") ∧
    setJoints [1] [] =
      ([], some "The size of the robot list does not match the size of the joints list") :=
  c9_length_check_before_send [1] [] [1] [] (by decide) (by decide)

/-- C10: every move dispatch — `_moveX` and `MoveC`, for every blocking
flag including `false` — first runs a complete, acknowledged `WaitMove`
request on the robot item and only then writes the move command line. -/
theorem c10_waitmove_precedes_move (t t1 t2 : MoveTarget) (rid : Nat)
    (mt : Int) (b b' : Bool) :
    (moveX t rid mt b).take 6 =
      waitMoveEvents rid ++ [WireEvent.sendLine "MoveX"] ∧
    (moveC t1 t2 rid b').take 6 =
      waitMoveEvents rid ++ [WireEvent.sendLine "MoveC"] := by
  constructor
  · cases t <;> cases b <;> rfl
  · cases t1 <;> cases t2 <;> cases b' <;> rfl

end Robolink
